import Mathlib

/-
Verification development for the lava_torrent library
(bencode codec, torrent builder, tracker response parser).

The embedding models:
  - src/bencode/mod.rs      : the BencodeElem value type (dictionaries as
    association lists; the HashMap remove operation as dictRemove);
  - src/tracker/mod.rs      : Peer / TrackerResponse / TrackerScrapeResponse
    parsing, starting from the already-parsed list of top-level bencode
    values (the bencode byte parser itself lives in src/bencode/read.rs and
    is composed in front of these functions; the claims treated here are
    all conditioned on its output);
  - src/torrent/v1/build.rs : the TorrentBuilder validation phase and the
    read_file / read_dir piece-hashing phase.  The filesystem is abstracted:
    a directory entry is its component path plus its byte contents, and the
    existence check of validate_path is a boolean input.  SHA-1 is the
    black-box 20-byte hasher of the spec and is abstracted as a function
    parameter over byte lists.

Rust machine integers are modelled as Int (i64) and Nat (usize / u16
values), with explicit truncation (emod 65536 for the i64 -> u16 cast).
Rust panics are modelled as distinguished outcome constructors
(TrackerOutcome.panicked, VOut.panicked); recoverable errors as Except
errors / VOut.fail.
-/

/-! ## Bencode values (src/bencode/mod.rs) -/

/-- The BencodeElem enum of src/bencode/mod.rs.  Constructors str, bytes,
int, list, dict, rawDict model String, Bytes, Integer, List, Dictionary,
RawDictionary.  HashMaps are modelled as association lists; raw byte
strings as lists of byte values. -/
inductive BencodeElem where
  | str (s : String)
  | bytes (b : List Nat)
  | int (n : Int)
  | list (xs : List BencodeElem)
  | dict (m : List (String × BencodeElem))
  | rawDict (m : List (List Nat × BencodeElem))

/-- The Dictionary alias of src/torrent/v1 (HashMap<String, BencodeElem>),
modelled as an association list. -/
abbrev Dictionary := List (String × BencodeElem)

/-- The Integer alias of src/torrent/v1 (i64). -/
abbrev Integer := Int

/-- HashMap::remove: returns the value stored at the key (if any) together
with the map with that entry removed. -/
def dictRemove (k : String) : Dictionary → Option BencodeElem × Dictionary
  | [] => (none, [])
  | (k2, v) :: rest =>
    if k2 = k then (some v, rest)
    else
      let r := dictRemove k rest
      (r.1, (k2, v) :: r.2)

/-- HashMap lookup (the value dictRemove would return). -/
def dictLookup (k : String) : Dictionary → Option BencodeElem
  | [] => none
  | (k2, v) :: rest => if k2 = k then some v else dictLookup k rest

/-! ## Tracker data model (src/tracker/mod.rs) -/

/-- An IP address as produced by Rust ip.parse::<IpAddr>() or
Ipv4Addr::from(u32).  A v4 address is identified by its big-endian u32
value. -/
inductive IpAddr where
  | v4 (n : Nat)
  | v6 (n : Nat)
deriving DecidableEq

/-- The Peer struct.  The SocketAddr field addr is split into its ip and
port components. -/
structure Peer where
  id : Option String
  ip : IpAddr
  port : Nat
  extra_fields : Option Dictionary

/-- The error kinds produced by the tracker parsing code
(src/error): MalformedTorrent, MalformedResponse,
TrackerErrorResponse(reason). -/
inductive ErrorKind where
  | malformedTorrent
  | malformedResponse
  | trackerErrorResponse (reason : String)
deriving DecidableEq

/-- Outcome of running tracker parsing code: either a Rust panic
(from Peer::from_bytes on a slice whose length is not 6) or a returned
Err value of some ErrorKind. -/
inductive TrackerOutcome where
  | panicked
  | fail (e : ErrorKind)
deriving DecidableEq

/-- The TrackerResponse struct. -/
structure TrackerResponse where
  interval : Integer
  peers : List Peer
  warning : Option String
  min_interval : Option Integer
  tracker_id : Option String
  complete : Option Integer
  incomplete : Option Integer
  extra_fields : Option Dictionary

/-- The SwarmMetadata struct. -/
structure SwarmMetadata where
  complete : Integer
  incomplete : Integer
  downloaded : Integer
  extra_fields : Option Dictionary

/-- The TrackerScrapeResponse struct (the files HashMap as an association
list from raw 20-byte info hashes). -/
structure TrackerScrapeResponse where
  files : List (List Nat × SwarmMetadata)
  extra_fields : Option Dictionary

/-- One hexadecimal digit character, lowercase, as produced by Rust
format!("{:x}"). -/
def hexDigitChar (n : Nat) : Char :=
  if n < 10 then Char.ofNat (48 + n) else Char.ofNat (87 + n)

/-- Rust format!("{:x}", b) for a byte b: no zero padding. -/
def byteToHex (b : Nat) : String :=
  if b < 16 then String.mk [hexDigitChar b]
  else String.mk [hexDigitChar (b / 16), hexDigitChar (b % 16)]

/-- bytes.iter().map(|b| format!("{:x}", b)).format("") of Peer::from_dict. -/
def hexEncode (bs : List Nat) : String :=
  String.join (bs.map byteToHex)

/-- The bytes of a Rust String (str::as_bytes), as byte values. -/
def str_bytes (s : String) : List Nat :=
  s.toUTF8.toList.map (fun b => b.toNat)

/-- Tail of Peer::from_dict after the "peer id" key has been processed
into id: extract "ip" and "port", build extra_fields from the rest, parse
the ip string.  parseIp abstracts Rust str::parse::<IpAddr>. -/
def Peer.from_dict_rest (parseIp : String → Option IpAddr) (id : Option String)
    (d1 : Dictionary) : Except TrackerOutcome Peer :=
  match dictRemove "ip" d1 with
  | (some (BencodeElem.str ip), d2) =>
    match dictRemove "port" d2 with
    | (some (BencodeElem.int port), d3) =>
      let extra_fields := if d3.isEmpty then none else some d3
      match parseIp ip with
      | some a => .ok { id := id, ip := a, port := (port.emod 65536).toNat,
                        extra_fields := extra_fields }
      | none => .error (.fail .malformedResponse)
    | (some _, _) => .error (.fail .malformedResponse)
    | (none, _) => .error (.fail .malformedResponse)
  | (some _, _) => .error (.fail .malformedResponse)
  | (none, _) => .error (.fail .malformedResponse)

/-- Peer::from_dict (src/tracker/mod.rs lines 102-149).  The port integer
is cast to u16 by truncation (emod 65536); a Bytes peer id is hex-encoded. -/
def Peer.from_dict (parseIp : String → Option IpAddr) (dict : Dictionary) :
    Except TrackerOutcome Peer :=
  match dictRemove "peer id" dict with
  | (some (BencodeElem.str s), d1) => Peer.from_dict_rest parseIp (some s) d1
  | (some (BencodeElem.bytes bs), d1) =>
    Peer.from_dict_rest parseIp (some (hexEncode bs)) d1
  | (some _, _) => .error (.fail .malformedResponse)
  | (none, d1) => Peer.from_dict_rest parseIp none d1

/-- Peer::from_bytes (src/tracker/mod.rs lines 154-171): requires exactly
6 bytes, panicking otherwise; first 4 bytes are the big-endian IPv4
address, last 2 bytes the big-endian port. -/
def Peer.from_bytes (bytes : List Nat) : Except TrackerOutcome Peer :=
  if bytes.length = 6 then
    .ok { id := none
        , ip := IpAddr.v4 (bytes.getD 0 0 * 16777216 + bytes.getD 1 0 * 65536 +
                           bytes.getD 2 0 * 256 + bytes.getD 3 0)
        , port := bytes.getD 4 0 * 256 + bytes.getD 5 0
        , extra_fields := none }
  else .error .panicked

/-- Iterator::collect over Results: map f over the list, stopping at the
first error. -/
def exMapM {α β ε : Type} (f : α → Except ε β) : List α → Except ε (List β)
  | [] => .ok []
  | x :: xs =>
    match f x with
    | .error e => .error e
    | .ok y =>
      match exMapM f xs with
      | .error e => .error e
      | .ok ys => .ok (y :: ys)

/-- TrackerResponse::extract_peers_from_list: every element must be a
dictionary, decoded by Peer::from_dict. -/
def TrackerResponse.extract_peers_from_list (parseIp : String → Option IpAddr)
    (l : List BencodeElem) : Except TrackerOutcome (List Peer) :=
  exMapM (fun elem =>
    match elem with
    | BencodeElem.dict d => Peer.from_dict parseIp d
    | _ => .error (.fail .malformedResponse)) l

/-- TrackerResponse::extract_peers_from_bytes (src/tracker/mod.rs lines
296-309): the byte count must be divisible by 6; peer i is decoded by
Peer::from_bytes from the slice bytes[6i..6(i+1)]. -/
def TrackerResponse.extract_peers_from_bytes (bytes : List Nat) :
    Except TrackerOutcome (List Peer) :=
  if bytes.length % 6 ≠ 0 then .error (.fail .malformedResponse)
  else
    exMapM (fun i => Peer.from_bytes ((bytes.drop (6 * i)).take 6))
      (List.range (bytes.length / 6))

/-- Removal of an optional String-valued key: absent is fine, present
non-String is a MalformedResponse error. -/
def remove_string (k : String) (d : Dictionary) :
    Except TrackerOutcome (Option String × Dictionary) :=
  match dictRemove k d with
  | (some (BencodeElem.str s), d2) => .ok (some s, d2)
  | (some _, _) => .error (.fail .malformedResponse)
  | (none, d2) => .ok (none, d2)

/-- Removal of an optional Integer-valued key: absent is fine, present
non-Integer is a MalformedResponse error. -/
def remove_int (k : String) (d : Dictionary) :
    Except TrackerOutcome (Option Integer × Dictionary) :=
  match dictRemove k d with
  | (some (BencodeElem.int n), d2) => .ok (some n, d2)
  | (some _, _) => .error (.fail .malformedResponse)
  | (none, d2) => .ok (none, d2)

/-- Tail of TrackerResponse::from_bytes after interval and peers have been
extracted: the optional warning / min interval / tracker id / complete /
incomplete keys, then extra_fields from whatever remains. -/
def TrackerResponse.finish (interval : Integer) (peers : List Peer)
    (d3 : Dictionary) : Except TrackerOutcome TrackerResponse :=
  match remove_string "warning" d3 with
  | .error e => .error e
  | .ok (warning, d4) =>
    match remove_int "min interval" d4 with
    | .error e => .error e
    | .ok (min_interval, d5) =>
      match remove_string "tracker id" d5 with
      | .error e => .error e
      | .ok (tracker_id, d6) =>
        match remove_int "complete" d6 with
        | .error e => .error e
        | .ok (complete, d7) =>
          match remove_int "incomplete" d7 with
          | .error e => .error e
          | .ok (incomplete, d8) =>
            let extra_fields := if d8.isEmpty then none else some d8
            .ok { interval := interval, peers := peers, warning := warning,
                  min_interval := min_interval, tracker_id := tracker_id,
                  complete := complete, incomplete := incomplete,
                  extra_fields := extra_fields }

/-- The match on the value of the "peers" key in
TrackerResponse::from_bytes: a List goes through extract_peers_from_list,
Bytes through extract_peers_from_bytes, a String through
extract_peers_from_bytes on its UTF-8 bytes, anything else is a
MalformedResponse error. -/
def TrackerResponse.extract_peers (parseIp : String → Option IpAddr)
    (pe : BencodeElem) : Except TrackerOutcome (List Peer) :=
  match pe with
  | BencodeElem.list l => TrackerResponse.extract_peers_from_list parseIp l
  | BencodeElem.bytes bs => TrackerResponse.extract_peers_from_bytes bs
  | BencodeElem.str s => TrackerResponse.extract_peers_from_bytes (str_bytes s)
  | _ => .error (.fail .malformedResponse)

/-- Body of TrackerResponse::from_bytes once the single top-level value is
known to be a dictionary: "failure reason" first (a String value aborts
with TrackerErrorResponse), then required "interval" and "peers", then the
optional keys. -/
def TrackerResponse.from_dict (parseIp : String → Option IpAddr)
    (dict : Dictionary) : Except TrackerOutcome TrackerResponse :=
  match dictRemove "failure reason" dict with
  | (some (BencodeElem.str reason), _) =>
    .error (.fail (.trackerErrorResponse reason))
  | (some _, _) => .error (.fail .malformedResponse)
  | (none, d1) =>
    match dictRemove "interval" d1 with
    | (some (BencodeElem.int interval), d2) =>
      match dictRemove "peers" d2 with
      | (some pe, d3) =>
        match TrackerResponse.extract_peers parseIp pe with
        | .error e => .error e
        | .ok peers => TrackerResponse.finish interval peers d3
      | (none, _) => .error (.fail .malformedResponse)
    | (some _, _) => .error (.fail .malformedResponse)
    | (none, _) => .error (.fail .malformedResponse)

/-- TrackerResponse::from_bytes (src/tracker/mod.rs lines 179-283) applied
to the already-parsed list of top-level bencode values: a count different
from 1 is rejected with MalformedTorrent (the kind used verbatim by the
source), a non-dictionary single value with MalformedResponse. -/
def TrackerResponse.from_parsed (parseIp : String → Option IpAddr)
    (parsed : List BencodeElem) : Except TrackerOutcome TrackerResponse :=
  match parsed with
  | [BencodeElem.dict dict] => TrackerResponse.from_dict parseIp dict
  | [_] => .error (.fail .malformedResponse)
  | _ => .error (.fail .malformedTorrent)

/-- SwarmMetadata::from_dict (src/tracker/mod.rs lines 317-353). -/
def SwarmMetadata.from_dict (dict : Dictionary) :
    Except TrackerOutcome SwarmMetadata :=
  match dictRemove "complete" dict with
  | (some (BencodeElem.int complete), d1) =>
    match dictRemove "incomplete" d1 with
    | (some (BencodeElem.int incomplete), d2) =>
      match dictRemove "downloaded" d2 with
      | (some (BencodeElem.int downloaded), d3) =>
        .ok { complete := complete, incomplete := incomplete,
              downloaded := downloaded,
              extra_fields := if d3.isEmpty then none else some d3 }
      | (some _, _) => .error (.fail .malformedResponse)
      | (none, _) => .error (.fail .malformedResponse)
    | (some _, _) => .error (.fail .malformedResponse)
    | (none, _) => .error (.fail .malformedResponse)
  | (some _, _) => .error (.fail .malformedResponse)
  | (none, _) => .error (.fail .malformedResponse)

/-- The per-entry decoding of the scrape "files" RawDictionary: every
value must be a dictionary holding SwarmMetadata. -/
def scrape_files (files : List (List Nat × BencodeElem)) :
    Except TrackerOutcome (List (List Nat × SwarmMetadata)) :=
  exMapM (fun kv =>
    match kv.2 with
    | BencodeElem.dict sd =>
      (match SwarmMetadata.from_dict sd with
       | .ok m => .ok (kv.1, m)
       | .error e => .error e)
    | _ => .error ((.fail .malformedResponse) : TrackerOutcome)) files

/-- TrackerScrapeResponse::from_bytes (src/tracker/mod.rs lines 361-409)
applied to the already-parsed top-level values: requires exactly one
dictionary (count mismatch again rejected with MalformedTorrent), whose
"files" key is a RawDictionary of per-info-hash SwarmMetadata
dictionaries. -/
def TrackerScrapeResponse.from_parsed (parsed : List BencodeElem) :
    Except TrackerOutcome TrackerScrapeResponse :=
  match parsed with
  | [BencodeElem.dict dict] =>
    (match dictRemove "files" dict with
     | (some (BencodeElem.rawDict files), d1) =>
       let extra_fields := if d1.isEmpty then none else some d1
       match scrape_files files with
       | .ok fs => .ok { files := fs, extra_fields := extra_fields }
       | .error e => .error e
     | (some _, _) => .error (.fail .malformedResponse)
     | (none, _) => .error (.fail .malformedResponse))
  | [_] => .error (.fail .malformedResponse)
  | _ => .error (.fail .malformedTorrent)

/-- The peer the compact-peers claim describes at index i of a compact
byte string: IPv4 address big-endian from bytes 6i..6i+4, port big-endian
from bytes 6i+4..6i+6, no id, no extra fields. -/
def compact_peer (bytes : List Nat) (i : Nat) : Peer :=
  { id := none
  , ip := IpAddr.v4 (bytes.getD (6 * i) 0 * 16777216 +
                     bytes.getD (6 * i + 1) 0 * 65536 +
                     bytes.getD (6 * i + 2) 0 * 256 +
                     bytes.getD (6 * i + 3) 0)
  , port := bytes.getD (6 * i + 4) 0 * 256 + bytes.getD (6 * i + 5) 0
  , extra_fields := none }

/-! ## Torrent builder (src/torrent/v1/build.rs) -/

/-- A std::path::Component: root, current dir, parent dir, or a normal
component. -/
inductive PathComp where
  | rootDir
  | curDir
  | parentDir
  | normal (s : String)
deriving DecidableEq

/-- str::starts_with('.'): the first character is a dot. -/
def starts_with_dot (s : String) : Bool :=
  match s.data with
  | c :: _ => c = '.'
  | [] => false

/-- Lexicographic comparison of character lists by Unicode scalar value
(the order Rust string comparison induces). -/
def list_char_lt : List Char → List Char → Bool
  | [], [] => false
  | [], _ :: _ => true
  | _ :: _, [] => false
  | c :: cs, d :: ds =>
    if c.toNat < d.toNat then true
    else if d.toNat < c.toNat then false
    else list_char_lt cs ds

/-- Rust String strict ordering (lexicographic on characters). -/
def str_lt (a b : String) : Bool :=
  list_char_lt a.data b.data

/-- Outcome of the validation phase of TorrentBuilder::build(): Ok(()),
an Err of kind TorrentBuilderFailure, or a Rust panic (the empty-map
branches of validate_extra_fields / validate_extra_info_fields). -/
inductive VOut where
  | ok
  | fail
  | panicked
deriving DecidableEq

/-- Error type of the file-reading phase (all its errors are of kind
TorrentBuilderFailure in the branches modelled here). -/
inductive BuildFailure where
  | builderFailure
deriving DecidableEq

/-- The File struct of the metainfo model: length in bytes and the
recorded path as a list of components. -/
structure File where
  length : Nat
  path : List String
  extra_fields : Option Dictionary

/-- A filesystem entry handed to read_dir: its path (components relative
to the canonical root) and its byte contents.  This abstracts the
filesystem walk of list_dir. -/
structure DirEntry where
  path : List String
  contents : List Nat

/-- The TorrentBuilder configuration record. -/
structure TorrentBuilder where
  announce : String
  announce_list : Option (List (List String))
  name : Option String
  path : List PathComp
  piece_length : Integer
  extra_fields : Option Dictionary
  extra_info_fields : Option Dictionary
  is_private : Bool

/-- TorrentBuilder::validate_announce: empty announce is an error. -/
def validate_announce (announce : String) : VOut :=
  if announce.isEmpty then .fail else .ok

/-- TorrentBuilder::validate_announce_list: if present, the list must be
non-empty, every tier non-empty, every url non-empty. -/
def validate_announce_list : Option (List (List String)) → VOut
  | none => .ok
  | some al =>
    if al.isEmpty then .fail
    else if al.any (fun tier => tier.isEmpty || tier.any String.isEmpty) then .fail
    else .ok

/-- TorrentBuilder::validate_name: if present, name must be non-empty. -/
def validate_name : Option String → VOut
  | none => .ok
  | some n => if n.isEmpty then .fail else .ok

/-- Whether a component path is absolute (starts at the root), as
Path::is_absolute on unix. -/
def is_absolute : List PathComp → Bool
  | PathComp.rootDir :: _ => true
  | _ => false

/-- TorrentBuilder::validate_path: no ParentDir component, no hidden
normal component (leading dot), must be absolute, must exist.  The
filesystem existence test is the boolean input. -/
def validate_path (p : List PathComp) (path_exists : Bool) : VOut :=
  if p.any (fun c => match c with
                     | PathComp.parentDir => true
                     | PathComp.normal s => starts_with_dot s
                     | _ => false) then .fail
  else if !(is_absolute p) then .fail
  else if path_exists then .ok else .fail

/-- TorrentBuilder::validate_piece_length: must be positive and, by the
bit trick n & (n-1) == 0, a power of two. -/
def validate_piece_length (pl : Integer) : VOut :=
  if pl ≤ 0 then .fail
  else if Nat.land pl.toNat (pl.toNat - 1) ≠ 0 then .fail
  else .ok

/-- TorrentBuilder::validate_extra_fields: an absent map is fine, a
present empty map PANICS, a present map with an empty key is an error. -/
def validate_extra_fields : Option Dictionary → VOut
  | none => .ok
  | some m =>
    if m.isEmpty then .panicked
    else if m.any (fun kv => kv.1.isEmpty) then .fail
    else .ok

/-- TorrentBuilder::validate_extra_info_fields: identical logic to
validate_extra_fields, applied to the info-dict extras. -/
def validate_extra_info_fields (m : Option Dictionary) : VOut :=
  validate_extra_fields m

/-- Sequencing of validation steps as the ? operator does: the first
non-Ok outcome aborts. -/
def seqV : VOut → VOut → VOut
  | .ok, o => o
  | .fail, _ => .fail
  | .panicked, _ => .panicked

/-- The validation phase of TorrentBuilder::build()
(src/torrent/v1/build.rs lines 56-62): the seven validations run in source
order. -/
def TorrentBuilder.validate (b : TorrentBuilder) (path_exists : Bool) : VOut :=
  seqV (validate_announce b.announce)
    (seqV (validate_announce_list b.announce_list)
      (seqV (validate_name b.name)
        (seqV (validate_path b.path path_exists)
          (seqV (validate_piece_length b.piece_length)
            (seqV (validate_extra_fields b.extra_fields)
              (validate_extra_info_fields b.extra_info_fields))))))

/-- announce violates the claimed rules. -/
def announce_bad (s : String) : Bool := s.isEmpty

/-- announce_list violates the claimed rules. -/
def announce_list_bad : Option (List (List String)) → Bool
  | none => false
  | some al => al.isEmpty || al.any (fun tier => tier.isEmpty || tier.any String.isEmpty)

/-- name violates the claimed rules. -/
def name_bad : Option String → Bool
  | none => false
  | some n => n.isEmpty

/-- path violates the claimed rules (not absolute, a ParentDir component,
a hidden normal component, or nonexistent). -/
def path_bad (p : List PathComp) (path_exists : Bool) : Bool :=
  p.any (fun c => match c with
                  | PathComp.parentDir => true
                  | PathComp.normal s => starts_with_dot s
                  | _ => false)
  || !(is_absolute p) || !path_exists

/-- piece_length violates the claimed rules (not positive or not a power
of two). -/
def piece_length_bad (pl : Integer) : Bool :=
  decide (pl ≤ 0) || decide (Nat.land pl.toNat (pl.toNat - 1) ≠ 0)

/-- An extra field map violates the claimed rules (contains an empty
key). -/
def extra_bad : Option Dictionary → Bool
  | none => false
  | some m => m.any (fun kv => kv.1.isEmpty)

/-- The configuration violates at least one of the validation rules
listed by the claim. -/
def violates (b : TorrentBuilder) (path_exists : Bool) : Bool :=
  announce_bad b.announce || announce_list_bad b.announce_list ||
  name_bad b.name || path_bad b.path path_exists ||
  piece_length_bad b.piece_length || extra_bad b.extra_fields ||
  extra_bad b.extra_info_fields

/-- Rust slice::chunks with positive chunk size, fuelled by the list
length: consecutive chunks of n elements, the last possibly shorter, none
for the empty list. -/
def chunksGo (n : Nat) : Nat → List Nat → List (List Nat)
  | 0, _ => []
  | _, [] => []
  | fuel + 1, x :: xs => ((x :: xs).take n) :: chunksGo n fuel ((x :: xs).drop n)

/-- bytes.chunks(n) of Rust (for n > 0 the fuel never runs out). -/
def chunks (n : Nat) (l : List Nat) : List (List Nat) :=
  chunksGo n l.length l

/-- TorrentBuilder::read_file (src/torrent/v1/build.rs lines 441-514) on a
file with the given contents: the length in bytes, and one hash per
piece_length-sized chunk OF THIS FILE ALONE (bytes.chunks(piece_length)).
The SHA-1 hasher is the abstract hash parameter; the usize/i64 conversion
and io error branches cannot fire on an abstract byte list. -/
def TorrentBuilder.read_file (hash : List Nat → List Nat) (piece_length : Nat)
    (contents : List Nat) : Nat × List (List Nat) :=
  (contents.length, (chunks piece_length contents).map hash)

/-- TorrentBuilder::last_component: Path::file_name, which is none when
the path ends in a ParentDir (and for the empty path). -/
def TorrentBuilder.last_component (p : List String) : Option String :=
  match p.getLast? with
  | some s => if s = ".." then none else some s
  | none => none

/-- Stable insertion into a sorted list (le x y means x sorts no later
than y). -/
def insertLe {α : Type} (le : α → α → Bool) (x : α) : List α → List α
  | [] => [x]
  | y :: ys => if le x y then x :: y :: ys else y :: insertLe le x ys

/-- Stable insertion sort, modelling Vec::sort. -/
def sortLe {α : Type} (le : α → α → Bool) : List α → List α
  | [] => []
  | x :: xs => insertLe le x (sortLe le xs)

/-- Lexicographic comparison of component paths, modelling the PathBuf
ordering used by entries.sort(). -/
def pathLe : List String → List String → Bool
  | [], _ => true
  | _ :: _, [] => false
  | a :: as2, b :: bs2 =>
    if str_lt a b then true
    else if str_lt b a then false
    else pathLe as2 bs2

/-- The loop body of TorrentBuilder::read_dir over the (already sorted)
entries: read each file, record a File whose path is just the entry's
last component, accumulate total length and concatenate the per-file
piece lists. -/
def TorrentBuilder.read_dir_entries (hash : List Nat → List Nat)
    (piece_length : Nat) :
    List DirEntry → Except BuildFailure (Nat × List File × List (List Nat))
  | [] => .ok (0, [], [])
  | e :: rest =>
    let fp := TorrentBuilder.read_file hash piece_length e.contents
    match TorrentBuilder.last_component e.path with
    | none => .error .builderFailure
    | some nm =>
      match TorrentBuilder.read_dir_entries hash piece_length rest with
      | .error err => .error err
      | .ok (tl, fs, ps) =>
        .ok (fp.1 + tl, { length := fp.1, path := [nm], extra_fields := none } :: fs,
             fp.2 ++ ps)

/-- TorrentBuilder::read_dir (src/torrent/v1/build.rs lines 516-540):
sort the collected entries by path, then process them in order. -/
def TorrentBuilder.read_dir (hash : List Nat → List Nat) (piece_length : Nat)
    (entries : List DirEntry) :
    Except BuildFailure (Nat × List File × List (List Nat)) :=
  TorrentBuilder.read_dir_entries hash piece_length
    (sortLe (fun a b => pathLe a.path b.path) entries)

/-- Modelled from the spec: the streaming piece hashing of section 4.4,
which chunks the byte concatenation of all collected files in sorted path
order, pieces spanning file boundaries, only the final piece possibly
short.  Used to compare the multi-file claim against read_dir. -/
def spanning_pieces (hash : List Nat → List Nat) (piece_length : Nat)
    (entries : List DirEntry) : List (List Nat) :=
  (chunks piece_length
    (((sortLe (fun a b => pathLe a.path b.path) entries).map DirEntry.contents).foldr
      (fun a b => a ++ b) [])).map hash

/-! ## Helper lemmas: dictionaries -/

theorem dictRemove_fst (k : String) (d : Dictionary) :
    (dictRemove k d).1 = dictLookup k d := by
  induction d with
  | nil => rfl
  | cons kv rest ih =>
    obtain ⟨k2, v⟩ := kv
    by_cases h : k2 = k <;> simp [dictRemove, dictLookup, h, ih]

theorem dictLookup_remove_ne (k k2 : String) (h : k2 ≠ k) (d : Dictionary) :
    dictLookup k2 (dictRemove k d).2 = dictLookup k2 d := by
  induction d with
  | nil => rfl
  | cons kv rest ih =>
    obtain ⟨k3, v⟩ := kv
    by_cases h3 : k3 = k
    · have hne : ¬k3 = k2 := by rw [h3]; exact fun hx => h hx.symm
      simp [dictRemove, dictLookup, h3, hne, Ne.symm h]
    · by_cases h2 : k3 = k2 <;> simp [dictRemove, dictLookup, h3, h2, ih, h]

/-! ## Helper lemmas: exMapM -/

theorem exMapM_error {α β ε : Type} (f : α → Except ε β) (l : List α) (e : ε)
    (h : exMapM f l = .error e) : ∃ x, x ∈ l ∧ f x = .error e := by
  induction l with
  | nil => simp [exMapM] at h
  | cons x xs ih =>
    cases hx : f x with
    | error e2 =>
      simp only [exMapM, hx] at h
      have he : e2 = e := by injection h
      exact ⟨x, by simp, by rw [hx, he]⟩
    | ok y =>
      simp only [exMapM, hx] at h
      cases hr : exMapM f xs with
      | error e2 =>
        simp only [hr] at h
        have he : e2 = e := by injection h
        obtain ⟨z, hz, hfz⟩ := ih (he ▸ hr)
        exact ⟨z, List.mem_cons_of_mem x hz, hfz⟩
      | ok ys => simp [hr] at h

theorem exMapM_ok_of_all {α β ε : Type} (f : α → Except ε β) (g : α → β)
    (l : List α) (h : ∀ x ∈ l, f x = .ok (g x)) :
    exMapM f l = .ok (l.map g) := by
  induction l with
  | nil => rfl
  | cons x xs ih =>
    simp only [exMapM, h x (by simp), ih (fun z hz => h z (by simp [hz])), List.map]

/-! ## Helper lemmas: tracker error kinds -/

theorem from_dict_rest_error (parseIp : String → Option IpAddr)
    (id : Option String) (d1 : Dictionary) (o : TrackerOutcome)
    (h : Peer.from_dict_rest parseIp id d1 = .error o) :
    o = .fail .malformedResponse := by
  unfold Peer.from_dict_rest at h
  repeat' split at h
  all_goals simp_all

theorem from_dict_error (parseIp : String → Option IpAddr) (d : Dictionary)
    (o : TrackerOutcome) (h : Peer.from_dict parseIp d = .error o) :
    o = .fail .malformedResponse := by
  unfold Peer.from_dict at h
  repeat' split at h
  all_goals first
    | exact from_dict_rest_error _ _ _ _ h
    | simp_all

theorem extract_list_error (parseIp : String → Option IpAddr)
    (l : List BencodeElem) (o : TrackerOutcome)
    (h : TrackerResponse.extract_peers_from_list parseIp l = .error o) :
    o = .fail .malformedResponse := by
  obtain ⟨x, _, hfx⟩ := exMapM_error _ _ _ h
  cases x <;> first
    | exact from_dict_error _ _ _ hfx
    | simp_all

theorem compact_slice_length (bytes : List Nat) (i : Nat)
    (h : 6 * i + 6 ≤ bytes.length) :
    ((bytes.drop (6 * i)).take 6).length = 6 := by
  rw [List.length_take, List.length_drop]
  omega

theorem from_bytes_slice_ok (bytes : List Nat) (i : Nat)
    (h : 6 * i + 6 ≤ bytes.length) :
    Peer.from_bytes ((bytes.drop (6 * i)).take 6) = .ok (compact_peer bytes i) := by
  have hl := compact_slice_length bytes i h
  have hg : ∀ m, m < 6 → ((bytes.drop (6 * i)).take 6).getD m 0 = bytes.getD (6 * i + m) 0 := by
    intro m hm
    rw [List.getD_eq_getElem?_getD, List.getD_eq_getElem?_getD,
        List.getElem?_take_of_lt hm, List.getElem?_drop]
  rw [Peer.from_bytes, if_pos hl]
  rw [hg 0 (by omega), hg 1 (by omega), hg 2 (by omega), hg 3 (by omega),
      hg 4 (by omega), hg 5 (by omega)]
  rfl

theorem extract_bytes_ok (bytes : List Nat) (k : Nat) (h : bytes.length = 6 * k) :
    TrackerResponse.extract_peers_from_bytes bytes =
      .ok ((List.range k).map (compact_peer bytes)) := by
  have h6 : bytes.length % 6 = 0 := by omega
  have hk : bytes.length / 6 = k := by omega
  rw [TrackerResponse.extract_peers_from_bytes, if_neg (by omega), hk]
  exact exMapM_ok_of_all _ _ _ (fun i hi =>
    from_bytes_slice_ok bytes i (by
      have : i < k := List.mem_range.mp hi
      omega))

theorem extract_bytes_error (bytes : List Nat) (o : TrackerOutcome)
    (h : TrackerResponse.extract_peers_from_bytes bytes = .error o) :
    o = .fail .malformedResponse := by
  unfold TrackerResponse.extract_peers_from_bytes at h
  split at h
  · simp_all
  · rename_i h6
    obtain ⟨i, hi, hfi⟩ := exMapM_error _ _ _ h
    have hik : i < bytes.length / 6 := List.mem_range.mp hi
    have hle : 6 * i + 6 ≤ bytes.length := by omega
    rw [from_bytes_slice_ok bytes i hle] at hfi
    simp at hfi

theorem remove_string_error (k : String) (d : Dictionary) (o : TrackerOutcome)
    (h : remove_string k d = .error o) : o = .fail .malformedResponse := by
  unfold remove_string at h
  repeat' split at h
  all_goals simp_all

theorem remove_int_error (k : String) (d : Dictionary) (o : TrackerOutcome)
    (h : remove_int k d = .error o) : o = .fail .malformedResponse := by
  unfold remove_int at h
  repeat' split at h
  all_goals simp_all

theorem extract_peers_error (parseIp : String → Option IpAddr)
    (pe : BencodeElem) (o : TrackerOutcome)
    (h : TrackerResponse.extract_peers parseIp pe = .error o) :
    o = .fail .malformedResponse := by
  cases pe with
  | list l => exact extract_list_error _ _ _ h
  | bytes bs => exact extract_bytes_error _ _ h
  | str s => exact extract_bytes_error _ _ h
  | _ => simp_all [TrackerResponse.extract_peers]

theorem finish_error (interval : Integer) (peers : List Peer) (d : Dictionary)
    (o : TrackerOutcome) (h : TrackerResponse.finish interval peers d = .error o) :
    o = .fail .malformedResponse := by
  unfold TrackerResponse.finish at h
  repeat' split at h
  all_goals try simp_all
  all_goals try (have h2 := remove_string_error _ _ _ (by assumption); simp_all)
  all_goals (have h2 := remove_int_error _ _ _ (by assumption); simp_all)

theorem tracker_from_dict_error (parseIp : String → Option IpAddr)
    (d : Dictionary) (o : TrackerOutcome)
    (h : TrackerResponse.from_dict parseIp d = .error o) :
    o = .fail .malformedResponse ∨ ∃ r, o = .fail (.trackerErrorResponse r) := by
  unfold TrackerResponse.from_dict at h
  repeat' split at h
  all_goals try (solve | simp_all)
  all_goals try (solve | (left; exact finish_error _ _ _ _ h))
  all_goals injection h with h2
  all_goals subst h2
  all_goals try (solve | (right; exact ⟨_, rfl⟩))
  all_goals (left; exact extract_peers_error _ _ _ (by assumption))

theorem swarm_from_dict_error (d : Dictionary) (o : TrackerOutcome)
    (h : SwarmMetadata.from_dict d = .error o) :
    o = .fail .malformedResponse := by
  unfold SwarmMetadata.from_dict at h
  repeat' split at h
  all_goals simp_all

theorem scrape_files_error (files : List (List Nat × BencodeElem))
    (o : TrackerOutcome) (h : scrape_files files = .error o) :
    o = .fail .malformedResponse := by
  obtain ⟨kv, _, hkv⟩ := exMapM_error _ _ _ h
  cases hv : kv.2 <;> rw [hv] at hkv <;> try simp_all
  rename_i sd
  cases hm : SwarmMetadata.from_dict sd with
  | ok m => rw [hm] at hkv; simp at hkv
  | error e2 =>
    rw [hm] at hkv
    have h3 := swarm_from_dict_error sd e2 hm
    simp_all

theorem scrape_from_parsed_error (parsed : List BencodeElem)
    (o : TrackerOutcome) (h : TrackerScrapeResponse.from_parsed parsed = .error o) :
    o = .fail .malformedResponse ∨
      (parsed.length ≠ 1 ∧ o = .fail .malformedTorrent) := by
  rcases parsed with _ | ⟨x, _ | ⟨y, t⟩⟩
  · right
    refine ⟨by simp, ?_⟩
    simp only [TrackerScrapeResponse.from_parsed] at h
    simp_all
  · left
    cases x <;> simp only [TrackerScrapeResponse.from_parsed] at h
    all_goals try (solve | simp_all)
    repeat' split at h
    all_goals try (solve | simp_all)
    all_goals injection h with h2
    all_goals subst h2
    all_goals exact scrape_files_error _ _ (by assumption)
  · right
    refine ⟨by simp, ?_⟩
    simp only [TrackerScrapeResponse.from_parsed] at h
    simp_all

/-! ## Helper lemmas: builder validation -/

theorem seqV_eq_ok (a b : VOut) : seqV a b = .ok ↔ a = .ok ∧ b = .ok := by
  cases a <;> simp [seqV]

theorem seqV_eq_pan (a b : VOut) :
    seqV a b = .panicked ↔ a = .panicked ∨ (a = .ok ∧ b = .panicked) := by
  cases a <;> simp [seqV]

theorem va_ok_iff (s : String) :
    validate_announce s = .ok ↔ announce_bad s = false := by
  unfold validate_announce announce_bad
  cases h : s.isEmpty <;> simp [h]

theorem va_pan (s : String) : validate_announce s ≠ .panicked := by
  unfold validate_announce
  cases h : s.isEmpty <;> simp [h]

theorem val_ok_iff (al : Option (List (List String))) :
    validate_announce_list al = .ok ↔ announce_list_bad al = false := by
  cases al with
  | none => simp [validate_announce_list, announce_list_bad]
  | some l =>
    cases h1 : l.isEmpty <;>
      cases h2 : l.any (fun tier => tier.isEmpty || tier.any String.isEmpty) <;>
      simp [validate_announce_list, announce_list_bad, h1, h2]

theorem val_pan (al : Option (List (List String))) :
    validate_announce_list al ≠ .panicked := by
  cases al with
  | none => simp [validate_announce_list]
  | some l =>
    cases h1 : l.isEmpty <;>
      cases h2 : l.any (fun tier => tier.isEmpty || tier.any String.isEmpty) <;>
      simp [validate_announce_list, h1, h2]

theorem vn_ok_iff (n : Option String) :
    validate_name n = .ok ↔ name_bad n = false := by
  cases n with
  | none => simp [validate_name, name_bad]
  | some s => cases h : s.isEmpty <;> simp [validate_name, name_bad, h]

theorem vn_pan (n : Option String) : validate_name n ≠ .panicked := by
  cases n with
  | none => simp [validate_name]
  | some s => cases h : s.isEmpty <;> simp [validate_name, h]

theorem vp_ok_iff (p : List PathComp) (pe : Bool) :
    validate_path p pe = .ok ↔ path_bad p pe = false := by
  unfold validate_path path_bad
  cases h1 : p.any (fun c => match c with
                             | PathComp.parentDir => true
                             | PathComp.normal s => starts_with_dot s
                             | _ => false) <;>
    cases h2 : is_absolute p <;> cases pe <;> simp [h1, h2]

theorem vp_pan (p : List PathComp) (pe : Bool) :
    validate_path p pe ≠ .panicked := by
  unfold validate_path
  cases h1 : p.any (fun c => match c with
                             | PathComp.parentDir => true
                             | PathComp.normal s => starts_with_dot s
                             | _ => false) <;>
    cases h2 : is_absolute p <;> cases pe <;> simp [h1, h2]

theorem vpl_ok_iff (pl : Integer) :
    validate_piece_length pl = .ok ↔ piece_length_bad pl = false := by
  unfold validate_piece_length piece_length_bad
  by_cases h1 : pl ≤ 0 <;>
    by_cases h2 : Nat.land pl.toNat (pl.toNat - 1) ≠ 0 <;> simp [h1, h2]

theorem vpl_pan (pl : Integer) : validate_piece_length pl ≠ .panicked := by
  unfold validate_piece_length
  by_cases h1 : pl ≤ 0 <;>
    by_cases h2 : Nat.land pl.toNat (pl.toNat - 1) ≠ 0 <;> simp [h1, h2]

theorem vef_pan_iff (m : Option Dictionary) :
    validate_extra_fields m = .panicked ↔ m = some [] := by
  cases m with
  | none => simp [validate_extra_fields]
  | some l =>
    cases l with
    | nil => simp [validate_extra_fields]
    | cons x xs =>
      cases h : (x :: xs).any (fun kv => kv.1.isEmpty) <;>
        simp [validate_extra_fields, h]

theorem vef_ok_iff (m : Option Dictionary) :
    validate_extra_fields m = .ok ↔ (extra_bad m = false ∧ m ≠ some []) := by
  cases m with
  | none => simp [validate_extra_fields, extra_bad]
  | some l =>
    cases l with
    | nil => simp [validate_extra_fields, extra_bad]
    | cons x xs =>
      cases h : (x :: xs).any (fun kv => kv.1.isEmpty) <;>
        simp [validate_extra_fields, extra_bad, h]

theorem validate_ok_iff (b : TorrentBuilder) (pe : Bool) :
    b.validate pe = .ok ↔
      (violates b pe = false ∧ b.extra_fields ≠ some [] ∧
       b.extra_info_fields ≠ some []) := by
  unfold TorrentBuilder.validate violates validate_extra_info_fields
  simp only [seqV_eq_ok, va_ok_iff, val_ok_iff, vn_ok_iff, vp_ok_iff,
    vpl_ok_iff, vef_ok_iff, Bool.or_eq_false_iff]
  tauto

theorem validate_pan_iff (b : TorrentBuilder) (pe : Bool) :
    b.validate pe = .panicked ↔
      (announce_bad b.announce = false ∧
       announce_list_bad b.announce_list = false ∧
       name_bad b.name = false ∧
       path_bad b.path pe = false ∧
       piece_length_bad b.piece_length = false ∧
       (b.extra_fields = some [] ∨
        (extra_bad b.extra_fields = false ∧ b.extra_fields ≠ some [] ∧
         b.extra_info_fields = some []))) := by
  unfold TorrentBuilder.validate validate_extra_info_fields
  simp only [seqV_eq_pan, seqV_eq_ok, va_ok_iff, val_ok_iff, vn_ok_iff,
    vp_ok_iff, vpl_ok_iff, vef_ok_iff, vef_pan_iff]
  have h1 := va_pan b.announce
  have h2 := val_pan b.announce_list
  have h3 := vn_pan b.name
  have h4 := vp_pan b.path pe
  have h5 := vpl_pan b.piece_length
  simp only [h1, h2, h3, h4, h5, false_or]
  tauto

/-! ## Helper lemmas: read_dir -/

theorem mem_insertLe {α : Type} (le : α → α → Bool) (x a : α) (l : List α) :
    a ∈ insertLe le x l ↔ a = x ∨ a ∈ l := by
  induction l with
  | nil => simp [insertLe]
  | cons y ys ih =>
    by_cases h : le x y = true
    · rw [insertLe, if_pos h]
      simp
    · rw [insertLe, if_neg h]
      simp only [List.mem_cons, ih]
      tauto

theorem mem_sortLe {α : Type} (le : α → α → Bool) (a : α) (l : List α) :
    a ∈ sortLe le l ↔ a ∈ l := by
  induction l with
  | nil => simp [sortLe]
  | cons x xs ih => simp [sortLe, mem_insertLe, ih]

theorem read_dir_entries_files (hash : List Nat → List Nat) (pl : Nat)
    (l : List DirEntry) :
    ∀ (tl : Nat) (fs : List File) (ps : List (List Nat)),
      TorrentBuilder.read_dir_entries hash pl l = .ok (tl, fs, ps) →
      ∀ f ∈ fs, ∃ e, e ∈ l ∧ ∃ s2,
        TorrentBuilder.last_component e.path = some s2 ∧ f.path = [s2] ∧
        f.length = e.contents.length := by
  induction l with
  | nil =>
    intro tl fs ps h f hf
    simp only [TorrentBuilder.read_dir_entries] at h
    injection h with h2
    injection h2 with h3 h4
    injection h4 with h5 h6
    subst h5
    simp at hf
  | cons e rest ih =>
    intro tl fs ps h f hf
    simp only [TorrentBuilder.read_dir_entries] at h
    cases hlc : TorrentBuilder.last_component e.path with
    | none => rw [hlc] at h; simp at h
    | some nm =>
      rw [hlc] at h
      cases hr : TorrentBuilder.read_dir_entries hash pl rest with
      | error err => rw [hr] at h; simp at h
      | ok trip =>
        obtain ⟨tl2, fs2, ps2⟩ := trip
        rw [hr] at h
        injection h with h2
        injection h2 with h3 h4
        injection h4 with h5 h6
        subst h5
        rcases List.mem_cons.mp hf with hf1 | hf2
        · subst hf1
          exact ⟨e, by simp, nm, hlc, rfl, rfl⟩
        · obtain ⟨e2, he2, s2, hs⟩ := ih tl2 fs2 ps2 hr f hf2
          exact ⟨e2, by simp [he2], s2, hs⟩

/-! ## Helper lemma: successful Peer.from_dict_rest -/

theorem from_dict_rest_ok (parseIp : String → Option IpAddr)
    (idv : Option String) (d1 : Dictionary) (s : String) (n : Integer)
    (a : IpAddr)
    (hip : dictLookup "ip" d1 = some (BencodeElem.str s))
    (hport : dictLookup "port" d1 = some (BencodeElem.int n))
    (hparse : parseIp s = some a) :
    ∃ ef, Peer.from_dict_rest parseIp idv d1 =
      .ok { id := idv, ip := a, port := (n.emod 65536).toNat,
            extra_fields := ef } := by
  rcases h1 : dictRemove "ip" d1 with ⟨v1, d2⟩
  have hv1 : v1 = some (BencodeElem.str s) := by
    have h2 := dictRemove_fst "ip" d1
    rw [h1] at h2
    exact h2.trans hip
  subst hv1
  have hd2 : dictLookup "port" d2 = some (BencodeElem.int n) := by
    have h3 := dictLookup_remove_ne "ip" "port" (by decide) d1
    rw [h1] at h3
    exact h3.trans hport
  rcases h4 : dictRemove "port" d2 with ⟨v2, d3⟩
  have hv2 : v2 = some (BencodeElem.int n) := by
    have h5 := dictRemove_fst "port" d2
    rw [h4] at h5
    exact h5.trans hd2
  subst hv2
  unfold Peer.from_dict_rest
  simp only [h1, h4, hparse]
  exact ⟨_, rfl⟩

/-! ## Claim theorems -/

/-- C1: the claim states that in a successful multi-file build the piece
digests are hashes of chunks of the CONCATENATION of all files in sorted
order, pieces spanning file boundaries, only the final piece short.  The
code instead chunks and hashes each file separately (read_file is applied
per entry and the per-file piece lists are concatenated).  Evaluated on a
directory of two one-byte files a = [0], b = [1] with piece_length 2: for
every hasher the code emits the two digests hash [0] and hash [1], while
the spanning algorithm of the claim emits the single digest hash [0, 1]. -/
theorem c1_pieces_do_not_span_files : ∀ hash : List Nat → List Nat,
    TorrentBuilder.read_dir hash 2 [⟨["a"], [0]⟩, ⟨["b"], [1]⟩] =
      .ok (2, [⟨1, ["a"], none⟩, ⟨1, ["b"], none⟩], [hash [0], hash [1]]) ∧
    spanning_pieces hash 2 [⟨["a"], [0]⟩, ⟨["b"], [1]⟩] = [hash [0, 1]] :=
  fun _ => ⟨rfl, rfl⟩

/-- C2: the claim states |pieces| = ceil(length / piece_length) for every
built torrent.  On the multi-file build of two one-byte files with
piece_length 2 the code produces 2 pieces (one per file), while
ceil(2 / 2) = 1. -/
theorem c2_piece_count_mismatch :
    TorrentBuilder.read_dir (fun l => l) 2 [⟨["a"], [0]⟩, ⟨["b"], [1]⟩] =
      .ok (2, [⟨1, ["a"], none⟩, ⟨1, ["b"], none⟩], [[0], [1]]) ∧
    ([[0], [1]] : List (List Nat)).length = 2 ∧ ((2 + 2 - 1) / 2 : Nat) = 1 :=
  ⟨rfl, rfl, rfl⟩

/-- C3 counterexample: a configuration that violates a listed rule (the
extra_info_fields map contains an empty key) but whose extra_fields map is
present and empty: build() panics instead of returning a BuilderFailure
error, so the claim as stated is false. -/
theorem c3_counterexample :
    violates ⟨"x", none, none, [PathComp.rootDir, PathComp.normal "a"], 2,
              some [], some [("", BencodeElem.int 0)], false⟩ true = true ∧
    TorrentBuilder.validate ⟨"x", none, none,
      [PathComp.rootDir, PathComp.normal "a"], 2,
      some [], some [("", BencodeElem.int 0)], false⟩ true ≠ VOut.fail := by
  constructor
  · decide
  · decide

/-- C3 amended: whenever the configuration violates one of the listed
validation rules, build() does not succeed, and it returns a
BuilderFailure error provided neither extra map is present-but-empty (in
that case the panic of validate_extra_fields / validate_extra_info_fields
can fire first). -/
theorem c3_validation_rejects (b : TorrentBuilder) (pe : Bool)
    (h : violates b pe = true) :
    b.validate pe ≠ VOut.ok ∧
      (b.extra_fields ≠ some [] → b.extra_info_fields ≠ some [] →
        b.validate pe = VOut.fail) := by
  constructor
  · intro hok
    rw [validate_ok_iff] at hok
    simp_all
  · intro hef heif
    cases hv : b.validate pe with
    | ok =>
      rw [validate_ok_iff] at hv
      simp_all
    | fail => rfl
    | panicked =>
      rw [validate_pan_iff] at hv
      rcases hv with ⟨_, _, _, _, _, hc⟩
      rcases hc with hc1 | ⟨_, _, hc2⟩
      · exact absurd hc1 hef
      · exact absurd hc2 heif

/-- C3 witness: a builder with an empty announce string is rejected with
a BuilderFailure error. -/
theorem c3_witness :
    TorrentBuilder.validate ⟨"", none, none, [PathComp.rootDir], 2,
      none, none, false⟩ true = VOut.fail :=
  (c3_validation_rejects _ true (by decide)).2 (by simp) (by simp)

/-- C4: for a compact peers byte string of length 6k the extraction
succeeds with exactly k peers, peer i holding the big-endian IPv4 address
of bytes 6i..6i+4 and the big-endian port of bytes 6i+4..6i+6, with no id
and no extra fields; a length not divisible by 6 is a MalformedResponse
error. -/
theorem c4_compact_peers (bytes : List Nat) (k : Nat) :
    (bytes.length = 6 * k →
      ∃ ps, TrackerResponse.extract_peers_from_bytes bytes = .ok ps ∧
        ps.length = k ∧
        ∀ i, i < k → ps[i]? = some (compact_peer bytes i)) ∧
    (bytes.length % 6 ≠ 0 →
      TrackerResponse.extract_peers_from_bytes bytes =
        .error (.fail .malformedResponse)) := by
  constructor
  · intro h
    refine ⟨(List.range k).map (compact_peer bytes), extract_bytes_ok bytes k h, ?_, ?_⟩
    · simp
    · intro i hi
      simp [List.getElem?_range hi]
  · intro h
    rw [TrackerResponse.extract_peers_from_bytes, if_pos h]

/-- C4 witness: the single compact record [127, 0, 0, 1, 26, 225] yields
one peer (127.0.0.1:6881), and the 1-byte string [0] is rejected. -/
theorem c4_witness :
    TrackerResponse.extract_peers_from_bytes [127, 0, 0, 1, 26, 225] =
      .ok [compact_peer [127, 0, 0, 1, 26, 225] 0] ∧
    TrackerResponse.extract_peers_from_bytes [0] =
      .error (.fail .malformedResponse) := by
  constructor
  · obtain ⟨ps, h1, h2, h3⟩ :=
      (c4_compact_peers [127, 0, 0, 1, 26, 225] 1).1 (by decide)
    obtain ⟨x, rfl⟩ := List.length_eq_one.mp h2
    have h4 := h3 0 (by decide)
    simp only [List.getElem?_cons_zero, Option.some.injEq] at h4
    rw [h4] at h1
    exact h1
  · exact (c4_compact_peers [0] 0).2 (by decide)

/-- C5: whenever the parsed input is a single top-level dictionary whose
"failure reason" key holds a String r, TrackerResponse parsing fails with
TrackerErrorResponse r, whatever other keys the dictionary holds. -/
theorem c5_failure_reason (parseIp : String → Option IpAddr)
    (d : Dictionary) (r : String)
    (h : dictLookup "failure reason" d = some (BencodeElem.str r)) :
    TrackerResponse.from_parsed parseIp [BencodeElem.dict d] =
      .error (.fail (.trackerErrorResponse r)) := by
  have h2 : (dictRemove "failure reason" d).1 = some (BencodeElem.str r) := by
    rw [dictRemove_fst]
    exact h
  rcases hd : dictRemove "failure reason" d with ⟨v, d1⟩
  rw [hd] at h2
  have h3 : v = some (BencodeElem.str r) := h2
  subst h3
  show TrackerResponse.from_dict parseIp d = _
  unfold TrackerResponse.from_dict
  rw [hd]

/-- C5 witness: a response dictionary carrying failure reason "banned"
and an interval is rejected with TrackerErrorResponse "banned". -/
theorem c5_witness :
    TrackerResponse.from_parsed (fun _ => none)
      [BencodeElem.dict [("failure reason", BencodeElem.str "banned"),
                         ("interval", BencodeElem.int 10)]] =
      .error (.fail (.trackerErrorResponse "banned")) :=
  c5_failure_reason (fun _ => none) _ "banned" rfl

/-- C6: a dict-form peer entry (ip a parseable String, port an Integer,
peer id absent or a String or Bytes) parses successfully; the port is the
integer truncated to 16 bits, the address is the parsed one, and a Bytes
peer id becomes its hexadecimal encoding. -/
theorem c6_peer_from_dict (parseIp : String → Option IpAddr) (d : Dictionary)
    (s : String) (n : Integer) (a : IpAddr)
    (hip : dictLookup "ip" d = some (BencodeElem.str s))
    (hport : dictLookup "port" d = some (BencodeElem.int n))
    (hparse : parseIp s = some a)
    (hpid : dictLookup "peer id" d = none ∨
            (∃ t, dictLookup "peer id" d = some (BencodeElem.str t)) ∨
            (∃ bs, dictLookup "peer id" d = some (BencodeElem.bytes bs))) :
    ∃ p, Peer.from_dict parseIp d = .ok p ∧
      p.port = (n.emod 65536).toNat ∧ p.ip = a ∧
      (∀ bs, dictLookup "peer id" d = some (BencodeElem.bytes bs) →
        p.id = some (hexEncode bs)) := by
  rcases h0 : dictRemove "peer id" d with ⟨v0, d1⟩
  have hv0 : v0 = dictLookup "peer id" d := by
    have h2 := dictRemove_fst "peer id" d
    rw [h0] at h2
    exact h2
  have hip1 : dictLookup "ip" d1 = some (BencodeElem.str s) := by
    have h3 := dictLookup_remove_ne "peer id" "ip" (by decide) d
    rw [h0] at h3
    exact h3.trans hip
  have hport1 : dictLookup "port" d1 = some (BencodeElem.int n) := by
    have h3 := dictLookup_remove_ne "peer id" "port" (by decide) d
    rw [h0] at h3
    exact h3.trans hport
  unfold Peer.from_dict
  rcases hpid with hnone | ⟨t, hstr⟩ | ⟨bs, hbytes⟩
  · obtain ⟨ef, hok⟩ := from_dict_rest_ok parseIp none d1 s n a hip1 hport1 hparse
    rw [h0, hv0.trans hnone] at *
    refine ⟨_, by simp only [h0]; exact hok, rfl, rfl, ?_⟩
    intro bs2 hbs2
    rw [hnone] at hbs2
    exact absurd hbs2 (by simp)
  · obtain ⟨ef, hok⟩ :=
      from_dict_rest_ok parseIp (some t) d1 s n a hip1 hport1 hparse
    have hv : v0 = some (BencodeElem.str t) := hv0.trans hstr
    subst hv
    refine ⟨_, by simp only [h0]; exact hok, rfl, rfl, ?_⟩
    intro bs2 hbs2
    rw [hstr] at hbs2
    exact absurd hbs2 (by simp)
  · obtain ⟨ef, hok⟩ :=
      from_dict_rest_ok parseIp (some (hexEncode bs)) d1 s n a hip1 hport1 hparse
    have hv : v0 = some (BencodeElem.bytes bs) := hv0.trans hbytes
    subst hv
    refine ⟨_, by simp only [h0]; exact hok, rfl, rfl, ?_⟩
    intro bs2 hbs2
    have h5 : some (BencodeElem.bytes bs) = some (BencodeElem.bytes bs2) :=
      hbytes.symm.trans hbs2
    have h6 : bs = bs2 := by
      injection h5 with h7
      injection h7
    rw [h6]

/-- C6 witness: a dict peer with ip 127.0.0.1, port 70000 and a two-byte
peer id parses to a peer with port 70000 mod 65536 and hex-encoded id. -/
theorem c6_witness :
    ∃ p, Peer.from_dict
      (fun t => if t = "127.0.0.1" then some (IpAddr.v4 2130706433) else none)
      [("ip", BencodeElem.str "127.0.0.1"), ("port", BencodeElem.int 70000),
       ("peer id", BencodeElem.bytes [10, 255])] = .ok p ∧
      p.port = ((70000 : Integer).emod 65536).toNat ∧
      p.ip = IpAddr.v4 2130706433 ∧
      (∀ bs, dictLookup "peer id"
          [("ip", BencodeElem.str "127.0.0.1"), ("port", BencodeElem.int 70000),
           ("peer id", BencodeElem.bytes [10, 255])] =
          some (BencodeElem.bytes bs) →
        p.id = some (hexEncode bs)) :=
  c6_peer_from_dict _ _ "127.0.0.1" 70000 (IpAddr.v4 2130706433) rfl rfl rfl
    (Or.inr (Or.inr ⟨[10, 255], rfl⟩))

/-- C7 counterexample: an empty top-level value list (count 0, a schema
violation) is rejected by TrackerResponse::from_bytes with
MalformedTorrent, not MalformedResponse as the claim states. -/
theorem c7_counterexample :
    TrackerResponse.from_parsed (fun _ => none) [] =
      .error (.fail .malformedTorrent) ∧
    ErrorKind.malformedTorrent ≠ ErrorKind.malformedResponse :=
  ⟨rfl, by decide⟩

/-- C7 amended: a top-level value count different from 1 is rejected by
both tracker parsers with MalformedTorrent (the kind the source reuses
from the torrent reader); with exactly one top-level value, every
rejection of TrackerResponse::from_bytes is MalformedResponse or a
TrackerErrorResponse, and every rejection of
TrackerScrapeResponse::from_bytes is MalformedResponse. -/
theorem c7_error_kinds (parseIp : String → Option IpAddr)
    (parsed : List BencodeElem) :
    (parsed.length ≠ 1 →
      TrackerResponse.from_parsed parseIp parsed =
        .error (.fail .malformedTorrent) ∧
      TrackerScrapeResponse.from_parsed parsed =
        .error (.fail .malformedTorrent)) ∧
    (parsed.length = 1 → ∀ e,
      TrackerResponse.from_parsed parseIp parsed = .error (.fail e) →
      e = .malformedResponse ∨ ∃ r, e = .trackerErrorResponse r) ∧
    (parsed.length = 1 → ∀ e,
      TrackerScrapeResponse.from_parsed parsed = .error (.fail e) →
      e = .malformedResponse) := by
  refine ⟨?_, ?_, ?_⟩
  · intro hlen
    rcases parsed with _ | ⟨x, _ | ⟨y, t⟩⟩
    · exact ⟨rfl, rfl⟩
    · simp at hlen
    · exact ⟨by cases x <;> rfl, by cases x <;> rfl⟩
  · intro hlen e he
    rcases parsed with _ | ⟨x, _ | ⟨y, t⟩⟩
    · simp at hlen
    · cases x
      case dict d =>
        simp only [TrackerResponse.from_parsed] at he
        rcases tracker_from_dict_error parseIp d _ he with h1 | ⟨r, h2⟩
        · left
          exact TrackerOutcome.fail.inj h1
        · right
          exact ⟨r, TrackerOutcome.fail.inj h2⟩
      all_goals
        simp only [TrackerResponse.from_parsed] at he
      all_goals
        left
      all_goals
        injection he with h2
      all_goals
        injection h2 with h3
      all_goals
        exact h3.symm
    · simp at hlen
  · intro hlen e he
    rcases scrape_from_parsed_error parsed _ he with h1 | ⟨hne, _⟩
    · exact TrackerOutcome.fail.inj h1
    · exact absurd hlen hne

/-- C7 witness: two top-level integers (count 2) are rejected by both
parsers with MalformedTorrent. -/
theorem c7_witness :
    TrackerResponse.from_parsed (fun _ => none)
      [BencodeElem.int 0, BencodeElem.int 1] =
      .error (.fail .malformedTorrent) ∧
    TrackerScrapeResponse.from_parsed [BencodeElem.int 0, BencodeElem.int 1] =
      .error (.fail .malformedTorrent) :=
  (c7_error_kinds (fun _ => none) [BencodeElem.int 0, BencodeElem.int 1]).1
    (by decide)

/-- C8 counterexample: a builder whose extra_fields is present but empty
AND whose announce is empty returns a BuilderFailure error (announce is
validated first), so such a configuration does not halt the process and
the claim as universally stated is false. -/
theorem c8_counterexample :
    (⟨"", none, none, [PathComp.rootDir], 2, some [], none, false⟩ :
      TorrentBuilder).extra_fields = some [] ∧
    TorrentBuilder.validate
      ⟨"", none, none, [PathComp.rootDir], 2, some [], none, false⟩ true =
      VOut.fail ∧
    VOut.fail ≠ VOut.panicked :=
  ⟨rfl, by decide, by decide⟩

/-- C8 amended: the validation phase of build() panics exactly when the
five earlier validations (announce, announce_list, name, path,
piece_length) pass and extra_fields is present-but-empty, or additionally
extra_fields passes and extra_info_fields is present-but-empty; the panic
(VOut.panicked) is the only validation outcome distinct from Ok and from
an Err of kind TorrentBuilderFailure. -/
theorem c8_panic_iff (b : TorrentBuilder) (pe : Bool) :
    b.validate pe = VOut.panicked ↔
      (announce_bad b.announce = false ∧
       announce_list_bad b.announce_list = false ∧
       name_bad b.name = false ∧
       path_bad b.path pe = false ∧
       piece_length_bad b.piece_length = false ∧
       (b.extra_fields = some [] ∨
        (extra_bad b.extra_fields = false ∧ b.extra_fields ≠ some [] ∧
         b.extra_info_fields = some []))) :=
  validate_pan_iff b pe

/-- C8 witness: an otherwise valid builder with an empty-but-present
extra_fields map panics. -/
theorem c8_witness :
    TorrentBuilder.validate
      ⟨"url", none, none, [PathComp.rootDir], 2, some [], none, false⟩ true =
      VOut.panicked :=
  (c8_panic_iff _ true).mpr ⟨rfl, rfl, rfl, rfl, rfl, Or.inl rfl⟩

/-- C9: in every successful multi-file build, each emitted File records a
path of exactly one component, the last path component of the collected
entry it came from (any directory prefix below the root is dropped). -/
theorem c9_file_paths_single_component (hash : List Nat → List Nat) (pl : Nat)
    (entries : List DirEntry) (tl : Nat) (fs : List File)
    (ps : List (List Nat))
    (h : TorrentBuilder.read_dir hash pl entries = .ok (tl, fs, ps)) :
    ∀ f ∈ fs, ∃ e, e ∈ entries ∧ ∃ s2,
      TorrentBuilder.last_component e.path = some s2 ∧ f.path = [s2] := by
  intro f hf
  unfold TorrentBuilder.read_dir at h
  obtain ⟨e, he, s2, hs1, hs2, _⟩ :=
    read_dir_entries_files hash pl _ tl fs ps h f hf
  exact ⟨e, (mem_sortLe _ e entries).mp he, s2, hs1, hs2⟩

/-- C9 witness: a file collected from a subdirectory (entry path
["d", "f"]) is recorded with the single-component path ["f"]. -/
theorem c9_witness :
    ∃ e, e ∈ [(⟨["d", "f"], [0]⟩ : DirEntry)] ∧ ∃ s2,
      TorrentBuilder.last_component e.path = some s2 ∧
      (⟨1, ["f"], none⟩ : File).path = [s2] :=
  c9_file_paths_single_component (fun l => l) 2 [⟨["d", "f"], [0]⟩] 1
    [⟨1, ["f"], none⟩] [[0]] rfl ⟨1, ["f"], none⟩ (List.Mem.head _)

/-- C10: through the public parsing entry point, Peer::from_bytes is only
reached on 6-byte slices, so its length-mismatch panic branch never
fires: TrackerResponse parsing never yields the panicked outcome. -/
theorem c10_no_panic (parseIp : String → Option IpAddr)
    (parsed : List BencodeElem) :
    TrackerResponse.from_parsed parseIp parsed ≠
      .error TrackerOutcome.panicked := by
  intro h
  rcases parsed with _ | ⟨x, _ | ⟨y, t⟩⟩
  · simp [TrackerResponse.from_parsed] at h
  · cases x
    case dict d =>
      simp only [TrackerResponse.from_parsed] at h
      rcases tracker_from_dict_error parseIp d _ h with h1 | ⟨r, h2⟩
      · exact absurd h1 (by simp)
      · exact absurd h2 (by simp)
    all_goals simp [TrackerResponse.from_parsed] at h
  · simp [TrackerResponse.from_parsed] at h
